import Mathlib

/-!
Shallow embedding of the per-frame animation code and the UI view-state
transitions of the INFOTECH repository, with theorems checking the
natural-language specification against it.

Numeric values are modelled as rationals. JavaScript floats form a subset of
the rationals and, where a claim depends on the sine of the host math
library, the embedding takes the sine as an explicit function parameter
(Math.sin of the host is one such function, bounded by 1 in absolute value
and sending 0 to 0 per the ECMAScript specification).
-/

namespace Infotech

/-! ## BlinkingLight, newer scene file (src/unnamed/part_000, lines 20-48) -/

/-- Mutable visual fields of the blinking-light mesh and its point light that
the part_000 per-frame callback writes: mesh scale, material opacity,
material color (an rgb triple), and the point-light intensity. -/
structure BlinkTarget where
  scale : ℚ
  opacity : ℚ
  colorR : ℚ
  colorG : ℚ
  colorB : ℚ
  lightIntensity : ℚ
  deriving Repr, DecidableEq

/-- Source line 24: blinkRate = 1.5 + (speed * 0.2). -/
def blinkRate (speed : ℚ) : ℚ := 1.5 + speed * 0.2

/-- Source lines 22-25: t = elapsedTime * speed + offset;
isOn = Math.sin(t * blinkRate) > 0. The host sine is a parameter. -/
def blinkIsOn (sin : ℚ → ℚ) (elapsed speed offset : ℚ) : Bool :=
  let t := elapsed * speed + offset
  decide (sin (t * blinkRate speed) > 0)

/-- Source lines 20-47: the body of the part_000 BlinkingLight useFrame
callback, for the case where the mesh ref is present. Writes scale
(1.2 on, 0.9 off), opacity (1.0 on, 0.15 off), the material color
(the base color, multiplied by 1.3 when on), and, when not on mobile,
the point-light intensity (1.2 on, 0.15 off). The base color of the
material is the rgb triple (cR, cG, cB). -/
def blinkUpdate (sin : ℚ → ℚ) (elapsed speed offset : ℚ)
    (cR cG cB : ℚ) (isMobile : Bool) (tgt : BlinkTarget) : BlinkTarget :=
  let isOn := blinkIsOn sin elapsed speed offset
  let intensity : ℚ := if isOn then 1.0 else 0.15
  let scale : ℚ := if isOn then 1.2 else 0.9
  { tgt with
    scale := scale
    opacity := intensity
    colorR := if isOn then cR * 1.3 else cR
    colorG := if isOn then cG * 1.3 else cG
    colorB := if isOn then cB * 1.3 else cB
    lightIntensity :=
      if isMobile then tgt.lightIntensity
      else if isOn then 1.2 else 0.15 }

/-! ## BlinkingLight, older scene file (src/unnamed/part_001, lines 18-30) -/

/-- Mutable visual fields written by the part_001 BlinkingLight callback:
mesh scale and material opacity. -/
structure Blink1Target where
  scale : ℚ
  opacity : ℚ
  deriving Repr, DecidableEq

/-- Source lines 20-27 of part_001: t = elapsedTime * speed + offset;
intensity = (Math.sin(t * 15) + 1) / 2; scale = 1 + intensity * 0.3;
opacity = 0.6 + intensity * 0.4. -/
def blinkUpdate1 (sin : ℚ → ℚ) (elapsed speed offset : ℚ)
    (tgt : Blink1Target) : Blink1Target :=
  let t := elapsed * speed + offset
  let intensity := (sin (t * 15) + 1) / 2
  { tgt with
    scale := 1 + intensity * 0.3
    opacity := 0.6 + intensity * 0.4 }

/-- A bounded odd clamp, used as one admissible stand-in for the host sine
when evaluating the animators at concrete inputs: it maps into [-1, 1]
and sends 0 to 0, as ECMAScript requires of Math.sin. -/
def clampUnit (x : ℚ) : ℚ := max (-1) (min 1 x)

/-! ## PulsePacket (src/unnamed/part_000 lines 325-335; identical code at
src/unnamed/part_001 lines 298-308) -/

/-- Truncation toward zero, as the ECMAScript remainder operator uses. -/
def ratTrunc (q : ℚ) : ℤ := if 0 ≤ q then ⌊q⌋ else ⌈q⌉

/-- The ECMAScript remainder operator on finite numbers with a nonzero
divisor: a % b = a - b * trunc (a / b), the result carrying the sign of
the dividend. -/
def jsMod (a b : ℚ) : ℚ := a - b * (ratTrunc (a / b) : ℚ)

/-- A three.js Vector3, as a rational triple. -/
structure Vec3 where
  x : ℚ
  y : ℚ
  z : ℚ
  deriving Repr, DecidableEq

/-- three.js Vector3.lerpVectors(v1, v2, alpha): componentwise
v1 + (v2 - v1) * alpha. -/
def lerpVectors (v1 v2 : Vec3) (alpha : ℚ) : Vec3 :=
  ⟨v1.x + (v2.x - v1.x) * alpha,
   v1.y + (v2.y - v1.y) * alpha,
   v1.z + (v2.z - v1.z) * alpha⟩

/-- Source line 327: t = (elapsedTime * speed + offset) % 1. -/
def pulseProgress (elapsed speed offset : ℚ) : ℚ :=
  jsMod (elapsed * speed + offset) 1

/-- Source line 330: opacity = t > 0.8 ? (1 - t) * 5 : 1. -/
def pulseOpacity (t : ℚ) : ℚ := if t > 0.8 then (1 - t) * 5 else 1

/-- Mutable visual fields written by the PulsePacket callback: the mesh
position and the material opacity. -/
structure PulseTarget where
  position : Vec3
  opacity : ℚ
  deriving Repr, DecidableEq

/-- Source lines 326-333: the body of the PulsePacket useFrame callback for
the case where the mesh ref is present: position is lerped between the
path endpoints at progress t, and opacity fades out past t = 0.8. -/
def pulseUpdate (elapsed speed offset : ℚ) (pathStart pathEnd : Vec3)
    (tgt : PulseTarget) : PulseTarget :=
  let t := pulseProgress elapsed speed offset
  { tgt with
    position := lerpVectors pathStart pathEnd t
    opacity := pulseOpacity t }

/-- part_000 lines 390-391 (identically part_001 lines 363-364): the props
handed to one PulsePacket by the CircuitFloor render body,
speed = 0.5 + Math.random() * 0.5 and offset = Math.random() * 10.
These two Math.random() calls are inline in the render body - not under
useMemo - so they are evaluated anew, with fresh draws rand1 and rand2,
on every re-render of CircuitFloor. Returns (speed, offset). -/
def circuitFloorPulseProps (rand1 rand2 : ℚ) : ℚ × ℚ :=
  (0.5 + rand1 * 0.5, rand2 * 10)

/-! ## Per-frame callbacks as total functions on an optional target
(the ref-null guard at part_000 lines 21 and 326) -/

/-- Source lines 20-48 of part_000: the whole useFrame callback of
BlinkingLight. When the mesh ref is absent (none) the frame is skipped and
the target is left unchanged; otherwise the update is applied. -/
def blinkFrame (sin : ℚ → ℚ) (elapsed speed offset : ℚ)
    (cR cG cB : ℚ) (isMobile : Bool) :
    Option BlinkTarget → Option BlinkTarget
  | none => none
  | some tgt => some (blinkUpdate sin elapsed speed offset cR cG cB isMobile tgt)

/-- Source lines 325-335 of part_000: the whole useFrame callback of
PulsePacket. When the mesh ref is absent the frame is skipped and the
target is left unchanged; otherwise the update is applied. -/
def pulseFrame (elapsed speed offset : ℚ) (pathStart pathEnd : Vec3) :
    Option PulseTarget → Option PulseTarget
  | none => none
  | some tgt => some (pulseUpdate elapsed speed offset pathStart pathEnd tgt)

/-! ## Phase offsets and render stability (part_000 line 18, part_001
line 16: offset = useMemo(() => Math.random() * 100, [])) -/

/-- Source part_000 line 18: the computation inside useMemo,
Math.random() * 100, with rand the value drawn from Math.random(). -/
def mkBlinkOffset (rand : ℚ) : ℚ := rand * 100

/-- Modelled from the spec: the React useMemo hook with an empty dependency
list (the [] at part_000 line 18), whose semantics lives in the React
library and not in this repository. On the first render the cell is empty
and the freshly computed value is stored; on every later render the stored
value is returned untouched, which is what the phase-offset invariant of
the spec relies on. Returns the observed value and the new cell. -/
def useMemoEmpty (cell : Option ℚ) (fresh : ℚ) : ℚ × Option ℚ :=
  match cell with
  | some v => (v, some v)
  | none => (fresh, some fresh)

/-- The offset values a BlinkingLight instance observes over a sequence of
renders, one Math.random() draw per render, threading the useMemo cell. -/
def renderOffsets : List ℚ → Option ℚ → List ℚ
  | [], _ => []
  | r :: rs, cell =>
    let p := useMemoEmpty cell (mkBlinkOffset r)
    p.1 :: renderOffsets rs p.2

/-- The per-instance data of a BlinkingLight that is fixed at creation:
the memoized phase offset and the speed prop. -/
structure BlinkInstance where
  offset : ℚ
  speed : ℚ
  deriving Repr, DecidableEq

/-- One animation frame acting on the pair (instance, target): the useFrame
callback only writes the visual target fields and never touches the
instance data, in particular not its phase offset. -/
def animStep (sin : ℚ → ℚ) (elapsed : ℚ) (cR cG cB : ℚ) (isMobile : Bool)
    (st : BlinkInstance × BlinkTarget) : BlinkInstance × BlinkTarget :=
  (st.1, blinkUpdate sin elapsed st.1.speed st.1.offset cR cG cB isMobile st.2)

/-! ## UI view-state (src/App.tsx lines 47-73, src/components/UIOverlay.tsx) -/

/-- The JavaScript String.prototype.toLowerCase map, restricted to the ASCII
strings this repository applies it to: each character is mapped to its
lower-case form. -/
def jsToLowerCase (s : String) : String := String.mk (s.data.map Char.toLower)

/-- The three pieces of UI view-state: activeSection and isDarkMode live in
App (App.tsx lines 48-50), mobileMenuOpen in UIOverlay (UIOverlay.tsx
line 11). -/
structure ViewState where
  activeSection : String
  isDarkMode : Bool
  mobileMenuOpen : Bool
  deriving Repr, DecidableEq

/-- App.tsx line 72: toggleTheme = () => setIsDarkMode(!isDarkMode), as a
transition on the view-state. -/
def toggleTheme (s : ViewState) : ViewState :=
  { s with isDarkMode := !s.isDarkMode }

/-- UIOverlay.tsx line 13: menuItems = [HOME, PROJECTS, TOOLS, CONTACT]. -/
def menuItems : List String :=
  [("HOME"), ("PROJECTS"), ("TOOLS"), ("CONTACT")]

/-- UIOverlay.tsx lines 88-91: the click handler of a mobile menu entry,
onNavigate(item.toLowerCase()) followed by setMobileMenuOpen(false), as a
single transition on the view-state. -/
def selectMobileMenuItem (item : String) (s : ViewState) : ViewState :=
  { s with activeSection := jsToLowerCase item, mobileMenuOpen := false }

/-- UIOverlay.tsx line 16: textPrimary class, chosen by the theme flag. -/
def textPrimary (isDark : Bool) : String :=
  if isDark then ("text-arch-100") else ("text-arch-900")

/-- UIOverlay.tsx line 17: textSecondary class (the same grey either way). -/
def textSecondary (isDark : Bool) : String :=
  if isDark then ("text-arch-500") else ("text-arch-500")

/-- UIOverlay.tsx lines 47-59: the desktop navigation render, one entry per
menu item carrying its label and its text class, the class depending on
whether the entry is the active one. -/
def navRender (activeSection : String) (isDark : Bool) : List (String × String) :=
  menuItems.map fun item =>
    (item, if activeSection == jsToLowerCase item then textPrimary isDark
           else textSecondary isDark)

/-! ## ServerBlade status lights (src/unnamed/part_001 lines 48-110) -/

/-- part_001 line 57: lightColor, chosen by the theme flag. -/
def bladeLightColor (isDark : Bool) : String :=
  if isDark then ("#00ff88") else ("#059669")

/-- part_001 line 58: secondaryLightColor, chosen by the theme flag. -/
def bladeSecondaryLightColor (isDark : Bool) : String :=
  if isDark then ("#00ffff") else ("#f43f5e")

/-- part_001 lines 55 and 100-110: the status-light row rendered by a
ServerBlade, as a list of (color, speed) pairs. hasLightsRand is the draw
memoized at line 55 (hasLights = Math.random() > 0.2, stable for the
instance); freshRand is the Math.random() call at line 106, evaluated
anew on every render, which decides whether the fourth, secondary-color
light is rendered. -/
def serverBlade1Lights (isDark : Bool) (hasLightsRand freshRand : ℚ) :
    List (String × ℚ) :=
  if hasLightsRand > 0.2 then
    [(bladeLightColor isDark, 4),
     (bladeLightColor isDark, 3),
     (bladeLightColor isDark, 6)] ++
    (if freshRand > 0.8 then [(bladeSecondaryLightColor isDark, 8)] else [])
  else []

/-! ## Helper lemmas -/

/-- For a nonnegative dividend, the ECMAScript remainder by 1 is the
fractional part. -/
lemma jsMod_one_of_nonneg (x : ℚ) (hx : 0 ≤ x) : jsMod x 1 = Int.fract x := by
  unfold jsMod ratTrunc
  rw [div_one, if_pos hx, one_mul, Int.self_sub_floor]

/-- A useMemo cell that already holds a value keeps returning it on every
later render, whatever fresh values are offered. -/
lemma renderOffsets_some (rs : List ℚ) (v : ℚ) :
    renderOffsets rs (some v) = List.replicate rs.length v := by
  induction rs with
  | nil => rfl
  | cons r rs ih => simp [renderOffsets, useMemoEmpty, ih, List.replicate]

/-! ## Claim theorems -/

/-- C1 (amended): the part_000 BlinkingLight is two-level: each frame writes
opacity 1.0 or 0.15, scale 1.2 or 0.9, and, off mobile, point-light
intensity 1.2 or 0.15, each pair selected by the on/off condition alone.
The part_001 BlinkingLight, in contrast, is continuously eased: its
opacity and scale are strictly increasing in the sampled sine value, so
they are not confined to two levels. -/
theorem blink_levels :
    (∀ (sin : ℚ → ℚ) (e s o cR cG cB : ℚ) (m : Bool) (tgt : BlinkTarget),
      ((blinkUpdate sin e s o cR cG cB m tgt).opacity = 1.0 ∨
        (blinkUpdate sin e s o cR cG cB m tgt).opacity = 0.15) ∧
      ((blinkUpdate sin e s o cR cG cB m tgt).scale = 1.2 ∨
        (blinkUpdate sin e s o cR cG cB m tgt).scale = 0.9) ∧
      (m = false →
        (blinkUpdate sin e s o cR cG cB m tgt).lightIntensity = 1.2 ∨
          (blinkUpdate sin e s o cR cG cB m tgt).lightIntensity = 0.15)) ∧
    (∀ (sin1 sin2 : ℚ → ℚ) (e s o : ℚ) (t1 t2 : Blink1Target),
      sin1 ((e * s + o) * 15) < sin2 ((e * s + o) * 15) →
        (blinkUpdate1 sin1 e s o t1).opacity <
            (blinkUpdate1 sin2 e s o t2).opacity ∧
          (blinkUpdate1 sin1 e s o t1).scale <
            (blinkUpdate1 sin2 e s o t2).scale) := by
  constructor
  · intro sin e s o cR cG cB m tgt
    cases h : blinkIsOn sin e s o <;>
      simp [blinkUpdate, h] <;> intro hm <;> simp [hm]
  · intro sin1 sin2 e s o t1 t2 hlt
    constructor <;> · simp only [blinkUpdate1]; nlinarith

/-- C1 witness: the theorem evaluated at concrete inputs, discharging the
monotonicity hypothesis at two concrete sine stand-ins. -/
theorem blink_levels_witness :
    ((blinkUpdate (fun _ => (1 : ℚ)) 0 1 0 1 1 1 false
        ⟨0, 0, 0, 0, 0, 0⟩).lightIntensity = 1.2 ∨
      (blinkUpdate (fun _ => (1 : ℚ)) 0 1 0 1 1 1 false
        ⟨0, 0, 0, 0, 0, 0⟩).lightIntensity = 0.15) ∧
    (blinkUpdate1 (fun _ => (0 : ℚ)) 0 1 0 ⟨1, 1⟩).opacity <
        (blinkUpdate1 (fun _ => (1 : ℚ)) 0 1 0 ⟨1, 1⟩).opacity ∧
      (blinkUpdate1 (fun _ => (0 : ℚ)) 0 1 0 ⟨1, 1⟩).scale <
        (blinkUpdate1 (fun _ => (1 : ℚ)) 0 1 0 ⟨1, 1⟩).scale :=
  ⟨(blink_levels.1 (fun _ => 1) 0 1 0 1 1 1 false ⟨0, 0, 0, 0, 0, 0⟩).2.2 rfl,
   blink_levels.2 (fun _ => 0) (fun _ => 1) 0 1 0 ⟨1, 1⟩ ⟨1, 1⟩ (by norm_num)⟩

/-- C1 counterexample: the part_001 blink opacity takes at least three
pairwise distinct values (0.8, 0.9 and 1) at concrete inputs, under an
admissible host sine (bounded by 1, sending 0 to 0), so the blink
function is not confined to two discrete intensity levels. -/
theorem blink1_three_opacity_values :
    (blinkUpdate1 clampUnit 0 1 0 ⟨1, 1⟩).opacity = 0.8 ∧
    (blinkUpdate1 clampUnit 0 1 (1/30) ⟨1, 1⟩).opacity = 0.9 ∧
    (blinkUpdate1 clampUnit 0 1 1 ⟨1, 1⟩).opacity = 1 ∧
    (0.8 : ℚ) ≠ 0.9 ∧ (0.9 : ℚ) ≠ 1 ∧ (0.8 : ℚ) ≠ 1 := by
  refine ⟨?_, ?_, ?_, by norm_num, by norm_num, by norm_num⟩ <;>
    norm_num [blinkUpdate1, clampUnit]

/-- C2 (amended): the blink on-condition of part_000 is
sin((t·s + o)·rate(s)) > 0 where rate(s) = 1.5 + s·0.2: the rate has the
claimed multiplicative form but varies with the per-instance speed
parameter rather than being one fixed constant for the class. -/
theorem blink_on_condition (sin : ℚ → ℚ) (e s o : ℚ) :
    blinkIsOn sin e s o = decide (sin ((e * s + o) * (1.5 + s * 0.2)) > 0) ∧
      blinkRate s = 1.5 + s * 0.2 := by
  refine ⟨rfl, ?_⟩
  unfold blinkRate
  ring

/-- C2 counterexample: the blink rate is not one fixed constant per light
class: it differs between two lights of the class whose speed parameters
are 1 and 2. -/
theorem blink_rate_not_constant :
    blinkRate 1 = 1.7 ∧ blinkRate 2 = 1.9 ∧ blinkRate 1 ≠ blinkRate 2 := by
  norm_num [blinkRate]

/-- C3: for elapsed time t ≥ 0, speed s > 0 and offset o ≥ 0, the pulse
progress (t·s + o) mod 1 lies in [0, 1), equals the fractional part of
t·s + o, wraps exactly at integer multiples of the cycle period
(advancing the elapsed time by one period 1/s leaves it unchanged, and
the remainder is 0 exactly at the integers), and the marker position is
the linear interpolation between the path endpoints at that progress. -/
theorem pulse_progress_range (e s o : ℚ) (ps pe : Vec3) (tgt : PulseTarget)
    (he : 0 ≤ e) (hs : 0 < s) (ho : 0 ≤ o) :
    0 ≤ pulseProgress e s o ∧ pulseProgress e s o < 1 ∧
    pulseProgress e s o = Int.fract (e * s + o) ∧
    pulseProgress (e + 1/s) s o = pulseProgress e s o ∧
    (∀ n : ℕ, jsMod (n : ℚ) 1 = 0) ∧
    (pulseUpdate e s o ps pe tgt).position =
      lerpVectors ps pe (pulseProgress e s o) := by
  have hx : 0 ≤ e * s + o := add_nonneg (mul_nonneg he hs.le) ho
  have h1 : pulseProgress e s o = Int.fract (e * s + o) :=
    jsMod_one_of_nonneg _ hx
  refine ⟨?_, ?_, h1, ?_, ?_, rfl⟩
  · rw [h1]; exact Int.fract_nonneg _
  · rw [h1]; exact Int.fract_lt_one _
  · have h2 : (e + 1/s) * s + o = (e * s + o) + 1 := by
      rw [add_mul, one_div_mul_cancel hs.ne.symm]; ring
    have hx' : 0 ≤ (e + 1/s) * s + o := by rw [h2]; linarith
    unfold pulseProgress
    rw [jsMod_one_of_nonneg _ hx', jsMod_one_of_nonneg _ hx, h2,
      Int.fract_add_one]
  · intro n
    rw [jsMod_one_of_nonneg (n : ℚ) (by positivity), Int.fract_natCast]

/-- C3 witness: the theorem evaluated at elapsed time 0, speed 1,
offset 1/2, and a concrete path. -/
theorem pulse_progress_range_witness :
    0 ≤ pulseProgress 0 1 (1/2) ∧ pulseProgress 0 1 (1/2) < 1 ∧
      pulseProgress (0 + 1/1) 1 (1/2) = pulseProgress 0 1 (1/2) :=
  ⟨(pulse_progress_range 0 1 (1/2) ⟨0, 0, 0⟩ ⟨1, 1, 1⟩ ⟨⟨0, 0, 0⟩, 1⟩
      (le_refl 0) one_pos (by norm_num)).1,
   (pulse_progress_range 0 1 (1/2) ⟨0, 0, 0⟩ ⟨1, 1, 1⟩ ⟨⟨0, 0, 0⟩, 1⟩
      (le_refl 0) one_pos (by norm_num)).2.1,
   (pulse_progress_range 0 1 (1/2) ⟨0, 0, 0⟩ ⟨1, 1, 1⟩ ⟨⟨0, 0, 0⟩, 1⟩
      (le_refl 0) one_pos (by norm_num)).2.2.2.1⟩

/-- C4: the pulse opacity is 1 for progress ≤ 0.8, equals (1 - p)·5 past
0.8 (so the two branches agree at 0.8, where both give 1), and on the
final fifth of the cycle it is strictly decreasing and stays strictly
positive, reaching 0 only in the limit p → 1. -/
theorem pulse_opacity_fade (p : ℚ) (h0 : 0 ≤ p) (h1 : p < 1) :
    (p ≤ 0.8 → pulseOpacity p = 1) ∧
    (0.8 < p → pulseOpacity p = (1 - p) * 5) ∧
    pulseOpacity 0.8 = 1 ∧ ((1 : ℚ) - 0.8) * 5 = 1 ∧
    (∀ q : ℚ, 0.8 < p → p < q → q < 1 →
      pulseOpacity q < pulseOpacity p ∧ 0 < pulseOpacity q) := by
  refine ⟨?_, ?_, ?_, by norm_num, ?_⟩
  · intro hp
    simp only [pulseOpacity]
    rw [if_neg (not_lt.mpr hp)]
  · intro hp
    simp only [pulseOpacity]
    rw [if_pos hp]
  · simp only [pulseOpacity]
    norm_num
  · intro q hp hpq hq1
    have hq : q > 0.8 := lt_trans hp hpq
    simp only [pulseOpacity]
    rw [if_pos hq, if_pos hp]
    constructor <;> nlinarith

/-- C4 witness: the theorem evaluated at progress 0.9, with the strict
decrease checked against progress 0.95. -/
theorem pulse_opacity_fade_witness :
    pulseOpacity 0.9 = ((1 : ℚ) - 0.9) * 5 ∧
      pulseOpacity 0.95 < pulseOpacity 0.9 ∧ 0 < pulseOpacity 0.95 :=
  ⟨(pulse_opacity_fade 0.9 (by norm_num) (by norm_num)).2.1 (by norm_num),
   ((pulse_opacity_fade 0.9 (by norm_num) (by norm_num)).2.2.2.2 0.95
      (by norm_num) (by norm_num) (by norm_num)).1,
   ((pulse_opacity_fade 0.9 (by norm_num) (by norm_num)).2.2.2.2 0.95
      (by norm_num) (by norm_num) (by norm_num)).2⟩

/-- C5: the theme toggle is an involution on the view-state, and a single
toggle flips the theme flag. -/
theorem toggle_theme_involution (s : ViewState) :
    toggleTheme (toggleTheme s) = s ∧
      (toggleTheme s).isDarkMode = !s.isDarkMode := by
  cases s
  simp [toggleTheme]

/-- C6: selecting a mobile menu entry is one transition that sets
activeSection to the lowercased item label, sets mobileMenuOpen to false,
and leaves the theme flag as it was. -/
theorem mobile_menu_select (item : String) (s : ViewState)
    (h : item ∈ menuItems) :
    selectMobileMenuItem item s =
      { activeSection := jsToLowerCase item, isDarkMode := s.isDarkMode,
        mobileMenuOpen := false } := by
  cases s
  rfl

/-- C6 witness: selecting PROJECTS from the mobile menu while on the home
view with the menu open yields the projects view with the menu closed. -/
theorem mobile_menu_select_witness :
    selectMobileMenuItem ("PROJECTS") ⟨("home"), true, true⟩ =
      ⟨("projects"), true, false⟩ := by
  rw [mobile_menu_select ("PROJECTS") ⟨("home"), true, true⟩ (by decide)]
  decide

/-- C7 (amended): the memoized phase offset of a BlinkingLight is computed
from the random draw of the first render, every later render observes
that same value whatever Math.random() returns later, and the per-frame
animation step writes only the visual target, never the instance data
holding the offset. The PulsePacket instances, however, get their offset
and speed props from Math.random() calls inline in the CircuitFloor
render body: those props are re-rolled on every re-render, and distinct
draws always hand the instance a distinct offset and a distinct speed,
so re-renders do resynchronize the pulse animations. -/
theorem phase_offset_stable :
    (∀ (r : ℚ) (rs : List ℚ),
      renderOffsets (r :: rs) none =
        mkBlinkOffset r :: List.replicate rs.length (mkBlinkOffset r)) ∧
    (∀ (sin : ℚ → ℚ) (e cR cG cB : ℚ) (m : Bool)
        (st : BlinkInstance × BlinkTarget),
      (animStep sin e cR cG cB m st).1 = st.1) ∧
    (∀ r1 r2 r2' : ℚ, r2 ≠ r2' →
      (circuitFloorPulseProps r1 r2).2 ≠ (circuitFloorPulseProps r1 r2').2) ∧
    (∀ r1 r1' r2 : ℚ, r1 ≠ r1' →
      (circuitFloorPulseProps r1 r2).1 ≠ (circuitFloorPulseProps r1' r2).1) := by
  refine ⟨?_, ?_, ?_, ?_⟩
  · intro r rs
    simp [renderOffsets, useMemoEmpty, renderOffsets_some]
  · intro sin e cR cG cB m st
    rfl
  · intro r1 r2 r2' hne hEq
    simp only [circuitFloorPulseProps] at hEq
    exact hne (by linarith)
  · intro r1 r1' r2 hne hEq
    simp only [circuitFloorPulseProps] at hEq
    exact hne (by linarith)

/-- C7 witness: the theorem evaluated at a concrete render sequence and at
concrete distinct draws. -/
theorem phase_offset_stable_witness :
    renderOffsets (1 :: [2, 3]) none =
      mkBlinkOffset 1 :: List.replicate 2 (mkBlinkOffset 1) ∧
    (circuitFloorPulseProps 0 (1/2)).2 ≠ (circuitFloorPulseProps 0 (1/4)).2 ∧
    (circuitFloorPulseProps (1/2) 0).1 ≠ (circuitFloorPulseProps (1/4) 0).1 :=
  ⟨phase_offset_stable.1 1 [2, 3],
   phase_offset_stable.2.2.1 0 (1/2) (1/4) (by norm_num),
   phase_offset_stable.2.2.2 (1/2) (1/4) 0 (by norm_num)⟩

/-- C7 counterexample: two renders of CircuitFloor with identical view-state
but different render-time Math.random() draws hand the same PulsePacket
instance different phase offsets (5 versus 2.5), so the phase offset of
this animated instance is recomputed on re-render rather than assigned
exactly once at creation. -/
theorem pulse_offset_rerolled :
    (circuitFloorPulseProps (1/2) (1/2)).2 = 5 ∧
    (circuitFloorPulseProps (1/2) (1/4)).2 = 5/2 ∧
    circuitFloorPulseProps (1/2) (1/2) ≠ circuitFloorPulseProps (1/2) (1/4) := by
  refine ⟨?_, ?_, ?_⟩ <;>
    simp only [circuitFloorPulseProps, ne_eq, Prod.mk.injEq] <;> norm_num

/-- C8 (amended): the navigation labels are a deterministic function of the
view-state (the rendered labels are exactly the fixed menu list), and the
ServerBlade light row of part_001 is determined by the theme, the
memoized has-lights draw and the render-time Math.random() sample: two
renders agree on the first three lights always, and agree entirely
whenever their fresh samples fall on the same side of 0.8 - but the
fourth, secondary-color light re-rolls that sample each render. -/
theorem render_determinism :
    (∀ (sec : String) (d : Bool), (navRender sec d).map Prod.fst = menuItems) ∧
    (∀ (d : Bool) (hl r1 r2 : ℚ),
      (serverBlade1Lights d hl r1).take 3 =
        (serverBlade1Lights d hl r2).take 3) ∧
    (∀ (d : Bool) (hl r1 r2 : ℚ), decide (r1 > 0.8) = decide (r2 > 0.8) →
      serverBlade1Lights d hl r1 = serverBlade1Lights d hl r2) := by
  refine ⟨?_, ?_, ?_⟩
  · intro sec d
    simp only [navRender, List.map_map]
    exact List.map_id menuItems
  · intro d hl r1 r2
    unfold serverBlade1Lights
    split_ifs <;> rfl
  · intro d hl r1 r2 h
    rw [decide_eq_decide] at h
    simp only [serverBlade1Lights, h]

/-- C8 witness: two renders whose fresh samples are both above 0.8 produce
the same light row. -/
theorem render_determinism_witness :
    serverBlade1Lights true 0.5 0.9 = serverBlade1Lights true 0.5 0.95 :=
  render_determinism.2.2 true 0.5 0.9 0.95 (by norm_num)

/-- C8 counterexample: two renders of the part_001 ServerBlade with
identical view-state (dark theme, same memoized has-lights draw) but
different render-time Math.random() samples produce different outputs:
the secondary cyan light is present in one and absent in the other. -/
theorem blade_render_not_deterministic :
    serverBlade1Lights true 0.5 0.9 =
      [(("#00ff88"), 4), (("#00ff88"), 3), (("#00ff88"), 6),
        (("#00ffff"), 8)] ∧
    serverBlade1Lights true 0.5 0.5 =
      [(("#00ff88"), 4), (("#00ff88"), 3), (("#00ff88"), 6)] ∧
    serverBlade1Lights true 0.5 0.9 ≠ serverBlade1Lights true 0.5 0.5 := by
  refine ⟨?_, ?_, ?_⟩ <;>
    norm_num [serverBlade1Lights, bladeLightColor, bladeSecondaryLightColor]

/-- C9: the per-frame animator is a total function of its inputs; in the
sole exceptional case where the underlying target object is absent, the
update for the frame is skipped and nothing is modified, and otherwise
the update is applied. -/
theorem animator_total :
    (∀ (sin : ℚ → ℚ) (e s o cR cG cB : ℚ) (m : Bool),
      blinkFrame sin e s o cR cG cB m none = none) ∧
    (∀ (sin : ℚ → ℚ) (e s o cR cG cB : ℚ) (m : Bool) (tgt : BlinkTarget),
      blinkFrame sin e s o cR cG cB m (some tgt) =
        some (blinkUpdate sin e s o cR cG cB m tgt)) ∧
    (∀ (e s o : ℚ) (ps pe : Vec3), pulseFrame e s o ps pe none = none) ∧
    (∀ (e s o : ℚ) (ps pe : Vec3) (tgt : PulseTarget),
      pulseFrame e s o ps pe (some tgt) =
        some (pulseUpdate e s o ps pe tgt)) :=
  ⟨fun _ _ _ _ _ _ _ _ => rfl, fun _ _ _ _ _ _ _ _ _ => rfl,
   fun _ _ _ _ _ => rfl, fun _ _ _ _ _ _ => rfl⟩

/-- C10: in an off frame of the part_000 BlinkingLight (not on mobile), the
mesh opacity and the point-light intensity are set to 0.15 - strictly
positive, so the light is dimmed but never invisible - and the scale to
0.9; in an on frame, opacity 1.0, light intensity 1.2 and scale 1.2. -/
theorem blink_off_level_positive (sin : ℚ → ℚ) (e s o cR cG cB : ℚ)
    (tgt : BlinkTarget) :
    (blinkIsOn sin e s o = false →
      (blinkUpdate sin e s o cR cG cB false tgt).opacity = 0.15 ∧
      (blinkUpdate sin e s o cR cG cB false tgt).lightIntensity = 0.15 ∧
      (blinkUpdate sin e s o cR cG cB false tgt).scale = 0.9 ∧
      (0 : ℚ) < 0.15) ∧
    (blinkIsOn sin e s o = true →
      (blinkUpdate sin e s o cR cG cB false tgt).opacity = 1.0 ∧
      (blinkUpdate sin e s o cR cG cB false tgt).lightIntensity = 1.2 ∧
      (blinkUpdate sin e s o cR cG cB false tgt).scale = 1.2) := by
  constructor <;> intro h <;> simp [blinkUpdate, h] <;> norm_num

/-- C10 witness: the theorem evaluated under concrete host sines forcing an
off frame and an on frame. -/
theorem blink_off_level_positive_witness :
    (blinkUpdate (fun _ => (-1 : ℚ)) 0 1 0 1 1 1 false
        ⟨0, 0, 0, 0, 0, 0⟩).opacity = 0.15 ∧
    (0 : ℚ) < 0.15 ∧
    (blinkUpdate (fun _ => (1 : ℚ)) 0 1 0 1 1 1 false
        ⟨0, 0, 0, 0, 0, 0⟩).opacity = 1.0 :=
  ⟨((blink_off_level_positive (fun _ => (-1 : ℚ)) 0 1 0 1 1 1
      ⟨0, 0, 0, 0, 0, 0⟩).1 (by norm_num [blinkIsOn])).1,
   ((blink_off_level_positive (fun _ => (-1 : ℚ)) 0 1 0 1 1 1
      ⟨0, 0, 0, 0, 0, 0⟩).1 (by norm_num [blinkIsOn])).2.2.2,
   ((blink_off_level_positive (fun _ => (1 : ℚ)) 0 1 0 1 1 1
      ⟨0, 0, 0, 0, 0, 0⟩).2 (by norm_num [blinkIsOn])).1⟩

end Infotech
